import Mathlib

/-!
Verification of the snapshot change-detection core of the HP scraper repository.

The repository scrapes retail category pages into dated snapshots of product
rows and diffs consecutive snapshots.  The embedding below models, over lists
of product rows with optional fields:

* `changed_num`     — the tolerant numeric comparator shared by
  `palacio_category_snapshot.py`, `palacio_manual_runner.py` and
  `palacio_manual_runner_selenium_v3.py` (`math.isclose` with `rel_tol=0`);
* `v3ComputeDiffs`  — `_compute_diffs` of `palacio_manual_runner_selenium_v3.py`
  (outer merge on the resolved key, rows split by merge indicator);
* `changesMerge`    — `_changes_merge` of `palacio_manual_runner.py`
  (same merge, with an extra `isna ^ isna` term on `sale_price`);
* `build_changes`   — `build_changes` of `adolfodominguez_scraper.py`;
* `compute_diffs`   — `compute_diffs` of `palacio_manual_runner_selenium_v2.py`
  (set-difference on keys, per-field changed list, `1e-6` tolerance);
* `discount_from_prices` / `_pct_discount` — the two discount derivations;
* `dedupe`          — the first-wins key de-duplication of the scrape loops
  (`run_job`, `scrape_category`, `run_single_category`).

Prices are modelled as exact rationals (`ℚ`); Python floats in the source.
Missing cells (`None` / `NaN`) are modelled as `none`.
-/

namespace HP

/-- One product row of a snapshot.  Fields follow the `COLUMNS` lists of the
scrapers; all fields the diff logic touches are optional, as in the source
(missing cell = `none`). -/
structure Row where
  product_id : Option String
  sku : Option String
  enlace : Option String
  name : Option String
  promo : Option String
  list_price : Option ℚ
  sale_price : Option ℚ
  discount_pct : Option ℚ
deriving DecidableEq

/-- The column a comparison joins on: `product_id`, `sku`, or the product link
(`enlace` / `url`). -/
inductive KeyField
  | product_id
  | sku
  | enlace
deriving DecidableEq

/-- Value of the selected key column in a row. -/
def recKey : KeyField → Row → Option String
  | .product_id, r => r.product_id
  | .sku, r => r.sku
  | .enlace, r => r.enlace

/-- `changed_num(a, b, atol)` of `palacio_category_snapshot.py:400`,
`palacio_manual_runner.py:285` and `palacio_manual_runner_selenium_v3.py:479`:
`False` when either side is missing, otherwise
`not math.isclose(a, b, rel_tol=0.0, abs_tol=atol)`, i.e. `|a - b| > atol`.
The source default for `atol` is `0.01`; callers pass it positionally here. -/
def changed_num (atol : ℚ) (a b : Option ℚ) : Bool :=
  match a, b with
  | some x, some y => decide (atol < |x - y|)
  | _, _ => false

/-- Key choice of `_compute_diffs` (v3, line 467): `product_id` unless that
column is entirely missing in the *current* snapshot, else `enlace`. -/
def v3Key (cur : List Row) : KeyField :=
  if cur.any fun r => r.product_id.isSome then .product_id else .enlace

/-- Key choice of `run_single_category` (`palacio_category_snapshot.py:392`)
and `_changes_merge` (`palacio_manual_runner.py:281`): `product_id` iff both
snapshots hold at least one non-null `product_id`, else `sku`. -/
def usePidKey (p c : List Row) : KeyField :=
  if ((c.any fun r => r.product_id.isSome) && (p.any fun r => r.product_id.isSome)) then
    .product_id
  else
    .sku

/-- Row-level change mask of v3's `_compute_diffs` (lines 489-493): any of the
three numeric columns changed per `changed_num` with the default `atol=0.01`. -/
def rowChangedV3 (rold rnew : Row) : Bool :=
  changed_num (1/100) rold.list_price rnew.list_price ||
  changed_num (1/100) rold.sale_price rnew.sale_price ||
  changed_num (1/100) rold.discount_pct rnew.discount_pct

/-- Row-level change mask of `_changes_merge` (`palacio_manual_runner.py:291`):
the three `changed_num` columns, plus `sale_price_old.isna() ^ sale_price_new.isna()`. -/
def rowChangedMerge (rold rnew : Row) : Bool :=
  changed_num (1/100) rold.list_price rnew.list_price ||
  changed_num (1/100) rold.sale_price rnew.sale_price ||
  changed_num (1/100) rold.discount_pct rnew.discount_pct ||
  (rold.sale_price.isNone != rnew.sale_price.isNone)

/-- `both["discount_pct_old"].fillna(-1) != both["discount_pct_new"].fillna(-1)`
of `build_changes` (`adolfodominguez_scraper.py:335`). -/
def discFillComp (a b : Option ℚ) : Bool :=
  decide (a.getD (-1) ≠ b.getD (-1))

/-- Row-level change mask of `build_changes` (`adolfodominguez_scraper.py:331`):
`changed_price` on the two price columns, the `sale_price` isna-xor term, and
exact comparison of `discount_pct` after `fillna(-1)`. -/
def rowChangedAD (rold rnew : Row) : Bool :=
  changed_num (1/100) rold.list_price rnew.list_price ||
  changed_num (1/100) rold.sale_price rnew.sale_price ||
  (rold.sale_price.isNone != rnew.sale_price.isNone) ||
  discFillComp rold.discount_pct rnew.discount_pct

/-- Rows of the current snapshot whose key matches no previous row: the
`right_only` rows of the outer merge (v3 line 496), resp. `cur_keys - prev_keys`. -/
def newItems (f : KeyField) (p c : List Row) : List Row :=
  c.filter fun rc => !(p.any fun rp => decide (recKey f rp = recKey f rc))

/-- Rows of the previous snapshot whose key matches no current row: the
`left_only` rows of the outer merge (v3 line 497). -/
def removedItems (f : KeyField) (p c : List Row) : List Row :=
  p.filter fun rp => !(c.any fun rc => decide (recKey f rc = recKey f rp))

/-- The `both` rows of `prev.merge(cur, on=key, how="outer")`: every (previous
row, current row) pair agreeing on the key column (pandas pairs duplicate keys
as a cross product, and joins missing keys with each other). -/
def bothPairs (f : KeyField) (p c : List Row) : List (Row × Row) :=
  (p.map fun rp => (c.filter fun rc => decide (recKey f rc = recKey f rp)).map
    fun rc => (rp, rc)).flatten

/-- The CHANGES rows of v3's `_compute_diffs`: `both` rows passing the mask. -/
def changesV3 (f : KeyField) (p c : List Row) : List (Row × Row) :=
  (bothPairs f p c).filter fun pr => rowChangedV3 pr.1 pr.2

/-- `_compute_diffs(prev_df, cur_df)` of `palacio_manual_runner_selenium_v3.py:464`:
returns the resolved key and the (changes, new, removed) tables. -/
def v3ComputeDiffs (p c : List Row) :
    KeyField × List (Row × Row) × List Row × List Row :=
  (v3Key c, changesV3 (v3Key c) p c, newItems (v3Key c) p c,
    removedItems (v3Key c) p c)

/-- The diff step of `run_one` (v3 lines 686-691): `_compute_diffs` when a
non-empty previous snapshot was loaded, otherwise the cold-start triple
`(changes=∅, new=cur, removed=∅)`. -/
def runOneDiff (prev : Option (List Row)) (cur : List Row) :
    List (Row × Row) × List Row × List Row :=
  match prev with
  | some p => if p.isEmpty then ([], cur, []) else (v3ComputeDiffs p cur).2
  | none => ([], cur, [])

/-- `_changes_merge(prev_df, cur_df)` of `palacio_manual_runner.py:278`:
cold start when the previous snapshot is absent or empty, otherwise an outer
merge on the `usePidKey` column with the `rowChangedMerge` mask. -/
def changesMerge (prev : Option (List Row)) (cur : List Row) :
    KeyField × List (Row × Row) × List Row × List Row :=
  match prev with
  | none => (.product_id, [], cur, [])
  | some p =>
    if p.isEmpty then (.product_id, [], cur, [])
    else
      (usePidKey p cur,
       (bothPairs (usePidKey p cur) p cur).filter fun pr => rowChangedMerge pr.1 pr.2,
       newItems (usePidKey p cur) p cur,
       removedItems (usePidKey p cur) p cur)

/-- `build_changes(current_df, prev_df, key)` of `adolfodominguez_scraper.py:312`
(the changes/new/removed part; the first returned value, `current_df` with a
`discount_pct_prev` column added, carries no diff information). -/
def build_changes (key : KeyField) (cur p : List Row) :
    List (Row × Row) × List Row × List Row :=
  ((bothPairs key p cur).filter fun pr => rowChangedAD pr.1 pr.2,
   newItems key p cur, removedItems key p cur)

/-- Key column value used by v2's `compute_diffs` after `astype(str)`: a
missing `product_id` prints as the string `"None"`. -/
def v2KeyStr (r : Row) : String :=
  match r.product_id with
  | some s => s
  | none => "None"

/-- Python truthiness on an optional string: `None` and `""` are falsy. -/
def truthyStr (s : Option String) : Option String :=
  match s with
  | some s => if s = "" then none else some s
  | none => none

/-- Numeric cell comparison inside v2's `compute_diffs` loop
(`palacio_manual_runner_selenium_v2.py:466-473`): both missing → equal, one
missing → changed, else changed iff `abs(a - b) > 1e-6`. -/
def v2NumChanged (a b : Option ℚ) : Bool :=
  match a, b with
  | none, none => false
  | none, some _ => true
  | some _, none => true
  | some x, some y => decide (1/1000000 < |x - y|)

/-- String cell comparison of the same loop: `(a or None) != (b or None)`. -/
def v2StrChanged (a b : Option String) : Bool :=
  decide (truthyStr a ≠ truthyStr b)

/-- Per-row changed-field names of v2's `compute_diffs`, over its
`compare_cols = (list_price, sale_price, discount_pct, promo)`. -/
def v2ChangedFields (rnew rold : Row) : List String :=
  (if v2NumChanged rnew.list_price rold.list_price then ["list_price"] else []) ++
  (if v2NumChanged rnew.sale_price rold.sale_price then ["sale_price"] else []) ++
  (if v2NumChanged rnew.discount_pct rold.discount_pct then ["discount_pct"] else []) ++
  (if v2StrChanged rnew.promo rold.promo then ["promo"] else [])

/-- The non-degenerate branch of v2's `compute_diffs`: key-set differences for
NEW/REMOVED, and for common keys the left merge of current against previous
rows, keeping rows with a non-empty changed-field list. -/
def v2Diff (p c : List Row) :
    List (Row × List String) × List Row × List Row :=
  (((c.filter fun rc => p.any fun rp => decide (v2KeyStr rp = v2KeyStr rc)).map
      fun rc => (p.filter fun rp => decide (v2KeyStr rp = v2KeyStr rc)).map
        fun rp => (rc, v2ChangedFields rc rp)).flatten.filter
    fun pr => !pr.2.isEmpty,
   c.filter fun rc => !(p.any fun rp => decide (v2KeyStr rp = v2KeyStr rc)),
   p.filter fun rp => !(c.any fun rc => decide (v2KeyStr rc = v2KeyStr rp)))

/-- `compute_diffs(prev_df, cur_df)` of `palacio_manual_runner_selenium_v2.py:413`:
empty/absent current → three empty tables (line 419-421); absent/empty previous
→ cold start `(changes=∅, new=cur, removed=∅)` (line 427-428); else `v2Diff`. -/
def compute_diffs (prev cur : Option (List Row)) :
    List (Row × List String) × List Row × List Row :=
  match cur with
  | none => ([], [], [])
  | some c =>
    if c.isEmpty then ([], [], [])
    else
      match prev with
      | none => ([], c, [])
      | some p => if p.isEmpty then ([], c, []) else v2Diff p c

/-- Python's `round(x, 2)` modelled on `ℚ`: round to the nearest multiple of
`1/100`, ties to even (banker's rounding). -/
def roundHalfEven (x : ℚ) : ℤ :=
  if x - ⌊x⌋ < 1/2 then ⌊x⌋
  else if 1/2 < x - ⌊x⌋ then ⌊x⌋ + 1
  else if 2 ∣ ⌊x⌋ then ⌊x⌋ else ⌊x⌋ + 1

/-- Round to two decimal places, Python `round(x, 2)`. -/
def round2 (x : ℚ) : ℚ := (roundHalfEven (x * 100) : ℚ) / 100

/-- `discount_from_prices(list_price, sale_price)` of
`adolfodominguez_scraper.py:204`: `None` when either price is missing or
`sale_price >= list_price`, else `round((1 - sale_price/list_price)*100, 2)`.
(The source has no positivity check; with `list_price = 0` and a smaller
`sale_price` the Python code raises `ZeroDivisionError`, a point no theorem
below touches.) -/
def discount_from_prices (list_price sale_price : Option ℚ) : Option ℚ :=
  match list_price, sale_price with
  | some lp, some sp =>
    if lp ≤ sp then none
    else some (round2 ((1 - sp / lp) * 100))
  | _, _ => none

/-- `_pct_discount(list_price, sale_price)` of
`palacio_manual_runner_selenium_v2.py:63`: `None` when either price is missing
or `list_price <= 0`, else `round((list_price - sale_price)/list_price*100, 2)`
— with no `sale_price < list_price` requirement. -/
def _pct_discount (list_price sale_price : Option ℚ) : Option ℚ :=
  match list_price, sale_price with
  | some lp, some sp =>
    if lp ≤ 0 then none
    else some (round2 ((lp - sp) / lp * 100))
  | _, _ => none

/-- The in-snapshot join key of the scrape loops:
`key = r.get("product_id") or r.get("enlace")` with Python truthiness, then
the `if key` guard — `none` means the row is dropped. -/
def tileKey (r : Row) : Option String :=
  match truthyStr r.product_id with
  | some k => some k
  | none => truthyStr r.enlace

/-- The body of the first-wins de-duplication loop (`run_job` of
`adolfodominguez_scraper.py:478`, `scrape_category` of v3 line 628,
`run_single_category` of `palacio_category_snapshot_ramonly.py:424`):
`if key and key not in seen: seen.add(key); rows.append(r)`. -/
def dedupeGo (seen : List String) : List Row → List Row
  | [] => []
  | r :: rs =>
    match tileKey r with
    | some k => if k ∈ seen then dedupeGo seen rs else r :: dedupeGo (k :: seen) rs
    | none => dedupeGo seen rs

/-- First-wins de-duplication of one page-traversal's rows, starting from an
empty `seen` set. -/
def dedupe (rows : List Row) : List Row := dedupeGo [] rows

/-- Keys of a snapshot's rows under the selected key column (pandas: the key
column as a set; a missing key is a joinable value of its own). -/
def keySet (f : KeyField) (l : List Row) : Finset (Option String) :=
  (l.map (recKey f)).toFinset

/-- Keys of the NEW table. -/
def newKeySet (f : KeyField) (p c : List Row) : Finset (Option String) :=
  ((newItems f p c).map (recKey f)).toFinset

/-- Keys of the REMOVED table. -/
def removedKeySet (f : KeyField) (p c : List Row) : Finset (Option String) :=
  ((removedItems f p c).map (recKey f)).toFinset

/-- Keys of the CHANGES table of v3's `_compute_diffs`. -/
def changedKeySetV3 (f : KeyField) (p c : List Row) : Finset (Option String) :=
  ((changesV3 f p c).map fun pr => recKey f pr.1).toFinset

/-- Keys present in both snapshots but in no CHANGES row: the implicit
"unchanged" class. -/
def unchangedKeySetV3 (f : KeyField) (p c : List Row) : Finset (Option String) :=
  (keySet f p ∩ keySet f c) \ changedKeySetV3 f p c

/-- Previous row of the missing-field-transition scenario: `sale_price`
missing, `list_price = 200`. -/
def rowOldC3 : Row :=
  { product_id := some "K1", sku := some "K1", enlace := some "/p/1",
    name := some "item", promo := none, list_price := some 200,
    sale_price := none, discount_pct := none }

/-- Current row of the same scenario: same key, same `list_price`,
`sale_price = 100.0`. -/
def rowNewC3 : Row := { rowOldC3 with sale_price := some 100 }

/-- A row with `list_price` missing and `sale_price` present. -/
def rowNoLp : Row :=
  { product_id := some "K2", sku := some "K2", enlace := some "/p/2",
    name := none, promo := none, list_price := none,
    sale_price := some 10, discount_pct := none }

/-- Same key as `rowNoLp`, with `list_price` present. -/
def rowLp : Row := { rowNoLp with list_price := some 50 }

/-- A row whose `product_id` and `sku` are both null (only the link is set). -/
def rowP4 : Row :=
  { product_id := none, sku := none, enlace := some "/p/1",
    name := none, promo := none, list_price := some 50,
    sale_price := some 50, discount_pct := none }

/-- Same key-less shape with a different `sale_price`. -/
def rowC4 : Row := { rowP4 with sale_price := some 40 }

/-- A fully keyed row for the concrete witnesses. -/
def rowW1 : Row :=
  { product_id := some "A1", sku := some "A1", enlace := some "/a1",
    name := some "w1", promo := none, list_price := some 10,
    sale_price := some 8, discount_pct := some 20 }

/-- A second row with a distinct key. -/
def rowW2 : Row :=
  { rowW1 with product_id := some "B2", sku := some "B2", enlace := some "/b2" }

/-- A later duplicate of `rowW1`'s key carrying different data. -/
def rowW1dup : Row := { rowW1 with sale_price := some 7 }

/-- A row with no usable key: `product_id` null and an empty link. -/
def rowKeyless : Row :=
  { product_id := none, sku := none, enlace := some "",
    name := none, promo := none, list_price := some 5,
    sale_price := none, discount_pct := none }

/-- A row with `discount_pct` missing (prices present and equal to its
partner's). -/
def rowDpNone : Row :=
  { product_id := some "K3", sku := some "K3", enlace := some "/p/3",
    name := none, promo := none, list_price := some 50,
    sale_price := some 40, discount_pct := none }

/-- Same key with `discount_pct` present. -/
def rowDpSome : Row := { rowDpNone with discount_pct := some 20 }

/-- A page traversal containing a keyless tile and a duplicate key. -/
def rowsW : List Row := [rowW1, rowKeyless, rowW2, rowW1dup]

/-- A two-row snapshot with distinct keys. -/
def snapW : List Row := [rowW1, rowW2]

/-! ## Helper lemmas -/

theorem abs_sub_add (a d : ℚ) (hd : 0 ≤ d) : |a - (a + d)| = d := by
  rw [show a - (a + d) = -d by ring, abs_neg, abs_of_nonneg hd]

theorem changed_num_some (atol x y : ℚ) :
    changed_num atol (some x) (some y) = decide (atol < |x - y|) := rfl

theorem v2NumChanged_some (x y : ℚ) :
    v2NumChanged (some x) (some y) = decide (1/1000000 < |x - y|) := rfl

theorem roundHalfEven_intCast (n : ℤ) : roundHalfEven (n : ℚ) = n := by
  unfold roundHalfEven
  rw [Int.floor_intCast, sub_self]
  norm_num

theorem round2_int (x : ℚ) (n : ℤ) (h : x = (n : ℚ)) : round2 x = (n : ℚ) := by
  subst h
  rw [round2, show ((n : ℚ) * 100) = ((n * 100 : ℤ) : ℚ) by push_cast; ring,
    roundHalfEven_intCast]
  push_cast
  ring

/-! ## Theorems for the claims -/

/-- C2, counterexample.  The claim reads the default tolerance `0.01` into
every cited comparator, but `compute_diffs` of
`palacio_manual_runner_selenium_v2.py` (cited lines 466-473) hardcodes
`abs(a - b) > 1e-6`: two prices differing by exactly `0.01` ARE flagged as
changed there, while the shared `changed_num` comparator does not flag them. -/
theorem tolerance_cex :
    v2NumChanged (some 100) (some (100 + 1/100)) = true ∧
    changed_num (1/100) (some 100) (some (100 + 1/100)) = false := by
  constructor
  · rw [v2NumChanged_some, abs_sub_add 100 (1/100) (by norm_num), decide_eq_true_eq]
    norm_num
  · rw [changed_num_some, abs_sub_add 100 (1/100) (by norm_num)]
    simp

/-- C2, amended.  In `changed_num` (the comparator of
`palacio_category_snapshot.py`, `palacio_manual_runner.py` and v3, default
tolerance `0.01`) a numeric field with both values present is changed iff
`|a - b| > 0.01`; a difference of exactly `0.01` is not flagged and `0.011`
is.  In v2's `compute_diffs` the tolerance is the hardcoded `1e-6` instead,
so `0.01` differences are flagged there. -/
theorem tolerance_boundary :
    (∀ x y : ℚ, changed_num (1/100) (some x) (some y) = true ↔ 1/100 < |x - y|) ∧
    changed_num (1/100) (some 75) (some (75 + 1/100)) = false ∧
    changed_num (1/100) (some 75) (some (75 + 11/1000)) = true ∧
    (∀ x y : ℚ, v2NumChanged (some x) (some y) = true ↔ 1/1000000 < |x - y|) := by
  refine ⟨fun x y => by simp [changed_num], ?_, ?_, fun x y => by simp [v2NumChanged]⟩
  · rw [changed_num_some, abs_sub_add 75 (1/100) (by norm_num)]
    simp
  · rw [changed_num_some, abs_sub_add 75 (11/1000) (by norm_num), decide_eq_true_eq]
    norm_num

/-- C5: with an absent (or empty) previous snapshot, every cited change
detector returns `new` = all current records, `removed` = ∅ and `changed` = ∅
— in v2's `compute_diffs`, `_changes_merge` of `palacio_manual_runner.py` and
the `run_one` diff step of v3. -/
theorem cold_start (S : List Row) :
    compute_diffs none (some S) = ([], S, []) ∧
    changesMerge none S = (.product_id, [], S, []) ∧
    runOneDiff none S = ([], S, []) ∧
    runOneDiff (some []) S = ([], S, []) := by
  refine ⟨?_, rfl, rfl, rfl⟩
  cases S <;> rfl

/-- C9: when the current snapshot is absent or empty, v2's `compute_diffs`
returns three empty tables, whatever the previous snapshot holds — previous
records are not reported as removed. -/
theorem empty_current (prev : Option (List Row)) :
    compute_diffs prev none = ([], [], []) ∧
    compute_diffs prev (some []) = ([], [], []) :=
  ⟨rfl, rfl⟩

/-- C4, counterexample.  With `product_id` AND `sku` entirely null on both
sides (only the link populated), the key resolver of
`palacio_category_snapshot.py` / `palacio_manual_runner.py` still selects
`sku`: the fallback to `sku` is unconditional and the claimed further fallback
to `url` does not exist. -/
theorem key_fallback_cex :
    usePidKey [rowP4] [rowC4] = KeyField.sku ∧
    rowP4.sku = none ∧ rowC4.sku = none ∧
    rowP4.enlace.isSome = true ∧ rowC4.enlace.isSome = true := by
  exact ⟨rfl, rfl, rfl, rfl, rfl⟩

/-- C4, amended.  `run_single_category` / `_changes_merge` select `product_id`
iff both snapshots have at least one non-null `product_id` and otherwise fall
back to `sku` unconditionally (never to `url`, usable or not); v3's
`_compute_diffs` inspects only the current snapshot and falls back directly to
`enlace`.  Each resolver picks a single field used for both snapshots. -/
theorem key_resolution (p c : List Row) :
    (usePidKey p c = KeyField.product_id ↔
      ((∃ r ∈ p, (r.product_id).isSome = true) ∧ (∃ r ∈ c, (r.product_id).isSome = true))) ∧
    (usePidKey p c = KeyField.product_id ∨ usePidKey p c = KeyField.sku) ∧
    (v3Key c = KeyField.product_id ↔ (∃ r ∈ c, (r.product_id).isSome = true)) ∧
    (v3Key c = KeyField.product_id ∨ v3Key c = KeyField.enlace) := by
  refine ⟨?_, ?_, ?_, ?_⟩
  · unfold usePidKey
    split
    · simp_all [List.any_eq_true, and_comm]
    · simp_all [List.any_eq_true, and_comm]
      assumption
  · unfold usePidKey
    split
    · exact Or.inl rfl
    · exact Or.inr rfl
  · unfold v3Key
    split <;> simp_all [List.any_eq_true]
  · unfold v3Key
    split
    · exact Or.inl rfl
    · exact Or.inr rfl

/-- C7, counterexample.  `_pct_discount(100, 100)` in
`palacio_manual_runner_selenium_v2.py` returns `0.0`, not `None`: that
implementation has no `sale_price < list_price` requirement, contradicting
the claim that every other case yields `None`. -/
theorem discount_cex : _pct_discount (some 100) (some 100) = some 0 := by
  rw [show _pct_discount (some 100) (some 100)
      = if (100:ℚ) ≤ 0 then none else some (round2 ((100 - 100) / 100 * 100)) from rfl,
    if_neg (by norm_num), round2_int _ 0 (by norm_num)]
  norm_num

/-- C7, amended.  `discount_from_prices` of `adolfodominguez_scraper.py`
computes `round((1 - sale/list)*100, 2)` whenever both prices are present and
`sale_price < list_price` — with no positivity requirement, so the negative
pair `(-50, -100)` yields `-100.0` — and `None` otherwise; `100/75 ↦ 25.0`
and `100/100 ↦ None` as claimed.  v2's `_pct_discount` instead returns
`round((list - sale)/list*100, 2)` whenever both prices are present and
`list_price > 0`, even when `sale_price ≥ list_price`: `100/100 ↦ 0.0` and
`100/150 ↦ -50.0`; it yields `None` only for a missing price or
`list_price ≤ 0`. -/
theorem discount_derivation :
    discount_from_prices (some 100) (some 75) = some 25 ∧
    discount_from_prices (some 100) (some 100) = none ∧
    discount_from_prices (some (-50)) (some (-100)) = some (-100) ∧
    (∀ sp, discount_from_prices none sp = none) ∧
    (∀ lp, discount_from_prices lp none = none) ∧
    _pct_discount (some 100) (some 75) = some 25 ∧
    _pct_discount (some 100) (some 150) = some (-50) ∧
    _pct_discount (some 0) (some 10) = none ∧
    (∀ sp, _pct_discount none sp = none) ∧
    (∀ lp, _pct_discount lp none = none) := by
  refine ⟨?_, ?_, ?_, fun sp => by cases sp <;> rfl, fun lp => by cases lp <;> rfl,
    ?_, ?_, ?_, fun sp => by cases sp <;> rfl, fun lp => by cases lp <;> rfl⟩
  · rw [show discount_from_prices (some 100) (some 75)
        = if (100:ℚ) ≤ 75 then none else some (round2 ((1 - 75/100) * 100)) from rfl,
      if_neg (by norm_num), round2_int _ 25 (by norm_num)]
    norm_num
  · rw [show discount_from_prices (some 100) (some 100)
        = if (100:ℚ) ≤ 100 then none else some (round2 ((1 - 100/100) * 100)) from rfl,
      if_pos (by norm_num)]
  · rw [show discount_from_prices (some (-50)) (some (-100))
        = if (-50:ℚ) ≤ -100 then none else some (round2 ((1 - (-100)/(-50)) * 100)) from rfl,
      if_neg (by norm_num), round2_int _ (-100) (by norm_num)]
    norm_num
  · rw [show _pct_discount (some 100) (some 75)
        = if (100:ℚ) ≤ 0 then none else some (round2 ((100 - 75) / 100 * 100)) from rfl,
      if_neg (by norm_num), round2_int _ 25 (by norm_num)]
    norm_num
  · rw [show _pct_discount (some 100) (some 150)
        = if (100:ℚ) ≤ 0 then none else some (round2 ((100 - 150) / 100 * 100)) from rfl,
      if_neg (by norm_num), round2_int _ (-50) (by norm_num)]
    norm_num
  · rw [show _pct_discount (some 0) (some 10)
        = if (0:ℚ) ≤ 0 then none else some (round2 ((0 - 10) / 0 * 100)) from rfl,
      if_pos (by norm_num)]

/-- C3, counterexample.  In v3's `_compute_diffs` (cited for this claim) the
change mask is only the three `changed_num` columns and `changed_num` returns
`False` when either side is missing, so the record with `sale_price` missing
in the previous snapshot and `sale_price = 100.0` in the current one (same
key, same `list_price`) lands in NO output table — in particular not in the
changed set, contrary to the claim. -/
theorem missing_transition_cex :
    (v3ComputeDiffs [rowOldC3] [rowNewC3]).2 = ([], [], []) := by
  simp [v3ComputeDiffs, changesV3, bothPairs, newItems, removedItems, v3Key,
    rowChangedV3, changed_num, rowOldC3, rowNewC3, recKey]

/-- C3, amended.  A numeric field missing on both sides counts as equal
everywhere, and `changed_num` never flags a one-sided-missing field.  In the
cited v3 `_compute_diffs`, whose mask is `changed_num` alone, the
`sale_price` `None → 100.0` record is therefore not reported at all.  In
`_changes_merge` of `palacio_manual_runner.py` the explicit `isna ^ isna`
term on `sale_price` flags that scenario — as a whole changed row, with no
changed-fields set — but a one-sided-missing `list_price` or `discount_pct`
is not flagged there.  In `build_changes` of `adolfodominguez_scraper.py` the
`sale_price` xor term and the `fillna(-1)` discount comparison flag
one-sided-missing transitions of those two fields (so the scenario is flagged
there too), while a one-sided-missing `list_price` is still not flagged. -/
theorem missing_transition :
    (changesMerge (some [rowOldC3]) [rowNewC3]).2.1 = [(rowOldC3, rowNewC3)] ∧
    (build_changes KeyField.product_id [rowNewC3] [rowOldC3]).1 = [(rowOldC3, rowNewC3)] ∧
    (∀ atol : ℚ, ∀ a : Option ℚ,
      changed_num atol none a = false ∧ changed_num atol a none = false) ∧
    rowChangedMerge rowLp rowNoLp = false ∧
    rowChangedMerge rowNoLp rowLp = false ∧
    rowChangedMerge rowDpNone rowDpSome = false ∧
    rowChangedAD rowDpNone rowDpSome = true ∧
    rowChangedAD rowLp rowNoLp = false ∧
    rowChangedV3 rowOldC3 rowNewC3 = false := by
  refine ⟨?_, ?_, fun atol a => by cases a <;> exact ⟨rfl, rfl⟩,
    ?_, ?_, ?_, ?_, ?_, ?_⟩
  · simp [changesMerge, usePidKey, bothPairs, newItems, removedItems,
      rowChangedMerge, changed_num, rowOldC3, rowNewC3, recKey]
  · simp [build_changes, bothPairs, rowChangedAD, changed_num, discFillComp,
      rowOldC3, rowNewC3, recKey]
  · simp [rowChangedMerge, changed_num, rowLp, rowNoLp]
  · simp [rowChangedMerge, changed_num, rowLp, rowNoLp]
  · simp [rowChangedMerge, changed_num, rowDpNone, rowDpSome]
  · simp [rowChangedAD, changed_num, discFillComp, rowDpNone, rowDpSome]
    norm_num
  · simp [rowChangedAD, changed_num, discFillComp, rowLp, rowNoLp]
  · simp [rowChangedV3, changed_num, rowOldC3, rowNewC3]

/-! ## Key-set membership lemmas for the partition claim -/

theorem mem_keySet {f : KeyField} {l : List Row} {k : Option String} :
    k ∈ keySet f l ↔ ∃ r ∈ l, recKey f r = k := by
  simp [keySet]

theorem mem_newItems {f : KeyField} {p c : List Row} {r : Row} :
    r ∈ newItems f p c ↔ r ∈ c ∧ ∀ rp ∈ p, ¬recKey f rp = recKey f r := by
  simp [newItems, List.mem_filter, Bool.not_eq_true', List.any_eq_false,
    decide_eq_true_eq]

theorem mem_removedItems {f : KeyField} {p c : List Row} {r : Row} :
    r ∈ removedItems f p c ↔ r ∈ p ∧ ∀ rc ∈ c, ¬recKey f rc = recKey f r := by
  simp [removedItems, List.mem_filter, Bool.not_eq_true', List.any_eq_false,
    decide_eq_true_eq]

theorem mem_bothPairs {f : KeyField} {p c : List Row} {pr : Row × Row} :
    pr ∈ bothPairs f p c ↔ pr.1 ∈ p ∧ pr.2 ∈ c ∧ recKey f pr.2 = recKey f pr.1 := by
  obtain ⟨a, b⟩ := pr
  simp only [bothPairs, List.mem_flatten, List.mem_map]
  constructor
  · rintro ⟨l, ⟨rp, hrp, rfl⟩, hmem⟩
    obtain ⟨rc, hrc, heq⟩ := List.mem_map.mp hmem
    rw [List.mem_filter, decide_eq_true_eq] at hrc
    injection heq with h1 h2
    subst h1; subst h2
    exact ⟨hrp, hrc.1, hrc.2⟩
  · rintro ⟨ha, hb, hk⟩
    refine ⟨_, ⟨a, ha, rfl⟩, List.mem_map.mpr ⟨b, ?_, rfl⟩⟩
    rw [List.mem_filter, decide_eq_true_eq]
    exact ⟨hb, hk⟩

theorem mem_newKeySet {f : KeyField} {p c : List Row} {k : Option String} :
    k ∈ newKeySet f p c ↔ k ∈ keySet f c ∧ k ∉ keySet f p := by
  simp only [newKeySet, List.mem_toFinset, List.mem_map, mem_keySet]
  constructor
  · rintro ⟨r, hr, rfl⟩
    rw [mem_newItems] at hr
    exact ⟨⟨r, hr.1, rfl⟩, fun ⟨rp, hrp, he⟩ => hr.2 rp hrp he⟩
  · rintro ⟨⟨r, hr, rfl⟩, hnp⟩
    exact ⟨r, mem_newItems.mpr ⟨hr, fun rp hrp he => hnp ⟨rp, hrp, he⟩⟩, rfl⟩

theorem mem_removedKeySet {f : KeyField} {p c : List Row} {k : Option String} :
    k ∈ removedKeySet f p c ↔ k ∈ keySet f p ∧ k ∉ keySet f c := by
  simp only [removedKeySet, List.mem_toFinset, List.mem_map, mem_keySet]
  constructor
  · rintro ⟨r, hr, rfl⟩
    rw [mem_removedItems] at hr
    exact ⟨⟨r, hr.1, rfl⟩, fun ⟨rc, hrc, he⟩ => hr.2 rc hrc he⟩
  · rintro ⟨⟨r, hr, rfl⟩, hnc⟩
    exact ⟨r, mem_removedItems.mpr ⟨hr, fun rc hrc he => hnc ⟨rc, hrc, he⟩⟩, rfl⟩

theorem changedKeySetV3_mem {f : KeyField} {p c : List Row} {k : Option String}
    (h : k ∈ changedKeySetV3 f p c) : k ∈ keySet f p ∧ k ∈ keySet f c := by
  simp only [changedKeySetV3, changesV3, List.mem_toFinset, List.mem_map] at h
  obtain ⟨pr, hpr, rfl⟩ := h
  rw [List.mem_filter] at hpr
  have hb := mem_bothPairs.mp hpr.1
  exact ⟨mem_keySet.mpr ⟨pr.1, hb.1, rfl⟩, mem_keySet.mpr ⟨pr.2, hb.2.1, hb.2.2⟩⟩

/-- C1: for every pair of snapshots, the key sets of the three outputs of
v3's `_compute_diffs` — new (`right_only`), removed (`left_only`) and changed
(flagged `both` rows) — are pairwise disjoint, also from the implicit
unchanged class, and the four classes together cover exactly the keys
occurring in the previous or the current snapshot, so every such key falls in
exactly one class.  Proven for every join column `f`, hence in particular for
the column `_compute_diffs` resolves. -/
theorem diff_key_partition (f : KeyField) (p c : List Row) :
    (newKeySet f p c ∩ removedKeySet f p c = ∅) ∧
    (newKeySet f p c ∩ changedKeySetV3 f p c = ∅) ∧
    (removedKeySet f p c ∩ changedKeySetV3 f p c = ∅) ∧
    (newKeySet f p c ∩ unchangedKeySetV3 f p c = ∅) ∧
    (removedKeySet f p c ∩ unchangedKeySetV3 f p c = ∅) ∧
    (changedKeySetV3 f p c ∩ unchangedKeySetV3 f p c = ∅) ∧
    (newKeySet f p c ∪ removedKeySet f p c ∪ changedKeySetV3 f p c ∪
        unchangedKeySetV3 f p c = keySet f p ∪ keySet f c) ∧
    v3ComputeDiffs p c = (v3Key c, changesV3 (v3Key c) p c,
      newItems (v3Key c) p c, removedItems (v3Key c) p c) := by
  refine ⟨?_, ?_, ?_, ?_, ?_, ?_, ?_, rfl⟩ <;>
  · ext k
    have hch := @changedKeySetV3_mem f p c k
    simp only [Finset.mem_inter, Finset.mem_union, Finset.not_mem_empty,
      iff_false, unchangedKeySetV3, Finset.mem_sdiff, mem_newKeySet,
      mem_removedKeySet, not_and, not_not]
    tauto

/-! ## Self-comparison lemmas -/

theorem changed_num_self (atol : ℚ) (h : 0 ≤ atol) (a : Option ℚ) :
    changed_num atol a a = false := by
  cases a with
  | none => rfl
  | some x =>
    simp only [changed_num, sub_self, abs_zero, decide_eq_false_iff_not, not_lt]
    exact h

theorem tol_nonneg : (0:ℚ) ≤ 1/100 := by norm_num

theorem rowChangedV3_self (r : Row) : rowChangedV3 r r = false := by
  unfold rowChangedV3
  rw [changed_num_self _ tol_nonneg, changed_num_self _ tol_nonneg,
    changed_num_self _ tol_nonneg]
  rfl

theorem rowChangedAD_self (r : Row) : rowChangedAD r r = false := by
  unfold rowChangedAD
  rw [changed_num_self _ tol_nonneg, changed_num_self _ tol_nonneg]
  simp [discFillComp]

theorem newItems_self (f : KeyField) (S : List Row) : newItems f S S = [] := by
  rw [newItems, List.filter_eq_nil_iff]
  intro r hr
  have : (S.any fun rp => decide (recKey f rp = recKey f r)) = true :=
    List.any_eq_true.mpr ⟨r, hr, by simp⟩
  simp [this]

theorem removedItems_self (f : KeyField) (S : List Row) : removedItems f S S = [] := by
  rw [removedItems, List.filter_eq_nil_iff]
  intro r hr
  have : (S.any fun rc => decide (recKey f rc = recKey f r)) = true :=
    List.any_eq_true.mpr ⟨r, hr, by simp⟩
  simp [this]

theorem bothPairs_self_filter (f : KeyField) (S : List Row)
    (h : (S.map (recKey f)).Nodup) (q : Row × Row → Bool)
    (hq : ∀ r, q (r, r) = false) :
    (bothPairs f S S).filter q = [] := by
  rw [List.filter_eq_nil_iff]
  intro pr hpr
  obtain ⟨h1, h2, h3⟩ := mem_bothPairs.mp hpr
  have heq : pr.2 = pr.1 := List.inj_on_of_nodup_map h h2 h1 h3
  have hpr2 : pr = (pr.1, pr.1) := by
    obtain ⟨a, b⟩ := pr
    simpa using heq
  rw [hpr2, hq]
  simp

/-- C6: comparing a snapshot with itself, under no duplicate keys, yields
empty new, removed and changed tables — both in v3's `_compute_diffs` (with
the key column it resolves) and in `build_changes` of
`adolfodominguez_scraper.py` for any join column `f`. -/
theorem self_diff_empty (S : List Row) (f : KeyField)
    (h1 : (S.map (recKey (v3Key S))).Nodup) (h2 : (S.map (recKey f)).Nodup) :
    (v3ComputeDiffs S S).2 = ([], [], []) ∧
    build_changes f S S = ([], [], []) := by
  constructor
  · show (changesV3 (v3Key S) S S, newItems (v3Key S) S S,
      removedItems (v3Key S) S S) = ([], [], [])
    rw [changesV3, bothPairs_self_filter _ _ h1 _ rowChangedV3_self,
      newItems_self, removedItems_self]
  · rw [build_changes, bothPairs_self_filter _ _ h2 _ rowChangedAD_self,
      newItems_self, removedItems_self]

/-- Witness for C6 at a concrete two-row snapshot with distinct keys. -/
theorem self_diff_empty_witness :
    (v3ComputeDiffs snapW snapW).2 = ([], [], []) ∧
    build_changes KeyField.product_id snapW snapW = ([], [], []) :=
  self_diff_empty snapW KeyField.product_id (by decide) (by decide)

/-! ## De-duplication lemmas -/

theorem dedupeGo_spec (rows : List Row) : ∀ (seen : List String), ∀ r ∈ dedupeGo seen rows,
    ∃ k, tileKey r = some k ∧ k ∉ seen ∧
      rows.find? (fun x => decide (tileKey x = some k)) = some r := by
  induction rows with
  | nil => intro seen r hr; simp [dedupeGo] at hr
  | cons x rs ih =>
    intro seen r hr
    cases hx : tileKey x with
    | none =>
      simp only [dedupeGo, hx] at hr
      obtain ⟨k, hk, hks, hfind⟩ := ih seen r hr
      refine ⟨k, hk, hks, ?_⟩
      rw [List.find?_cons_of_neg, hfind]
      simp [hx]
    | some kx =>
      simp only [dedupeGo, hx] at hr
      by_cases hseen : kx ∈ seen
      · rw [if_pos hseen] at hr
        obtain ⟨k, hk, hks, hfind⟩ := ih seen r hr
        refine ⟨k, hk, hks, ?_⟩
        rw [List.find?_cons_of_neg, hfind]
        simp only [hx, decide_eq_true_eq, Option.some.injEq]
        intro he
        exact hks (he ▸ hseen)
      · rw [if_neg hseen] at hr
        rcases List.mem_cons.mp hr with rfl | hr'
        · refine ⟨kx, hx, hseen, ?_⟩
          rw [List.find?_cons_of_pos]
          simp [hx]
        · obtain ⟨k, hk, hks, hfind⟩ := ih (kx :: seen) r hr'
          have hkne : kx ≠ k := fun he => hks (by simp [he])
          refine ⟨k, hk, fun hkseen => hks (List.mem_cons_of_mem _ hkseen), ?_⟩
          rw [List.find?_cons_of_neg, hfind]
          simp only [hx, decide_eq_true_eq, Option.some.injEq]
          exact hkne

theorem dedupeGo_keys_nodup (rows : List Row) :
    ∀ seen, ((dedupeGo seen rows).filterMap tileKey).Nodup := by
  induction rows with
  | nil => intro seen; simp [dedupeGo]
  | cons x rs ih =>
    intro seen
    cases hx : tileKey x with
    | none =>
      simp only [dedupeGo, hx]
      exact ih seen
    | some kx =>
      simp only [dedupeGo, hx]
      by_cases hseen : kx ∈ seen
      · rw [if_pos hseen]; exact ih seen
      · rw [if_neg hseen]
        rw [List.filterMap_cons, hx]
        refine List.nodup_cons.mpr ⟨?_, ih (kx :: seen)⟩
        intro hmem
        rw [List.mem_filterMap] at hmem
        obtain ⟨r, hr, hkr⟩ := hmem
        obtain ⟨k, hk, hks, -⟩ := dedupeGo_spec rs (kx :: seen) r hr
        rw [hk, Option.some.injEq] at hkr
        exact hks (hkr ▸ List.mem_cons_self kx seen)

/-- C8: the scrape loops de-duplicate records by `product_id or enlace` with
the first occurrence winning: each key occurs at most once among the kept
rows, and a kept row is exactly the first record of the page traversal
bearing its key; the keyless/duplicate rows are silently skipped (the
function is total). -/
theorem dedupe_first_wins (rows : List Row) :
    ((dedupe rows).filterMap tileKey).Nodup ∧
    ∀ r ∈ dedupe rows, ∃ k, tileKey r = some k ∧
      rows.find? (fun x => decide (tileKey x = some k)) = some r := by
  refine ⟨dedupeGo_keys_nodup rows [], fun r hr => ?_⟩
  obtain ⟨k, hk, -, hfind⟩ := dedupeGo_spec rows [] r hr
  exact ⟨k, hk, hfind⟩

/-- Witness for C8: in a page traversal where `rowW1dup` later repeats
`rowW1`'s key, the kept row is the first occurrence `rowW1`. -/
theorem dedupe_first_wins_witness :
    ∃ k, tileKey rowW1 = some k ∧
      rowsW.find? (fun x => decide (tileKey x = some k)) = some rowW1 :=
  (dedupe_first_wins rowsW).2 rowW1 (by decide)

/-- C10: every record kept by the de-duplicating scrape loop has a usable
join key: its `tileKey` (`product_id or enlace` with Python truthiness) is
non-null, so a tile with `product_id` and `enlace` both missing or empty is
dropped and never reaches the persisted snapshot. -/
theorem no_keyless_rows (rows : List Row) :
    ∀ r ∈ dedupe rows, tileKey r ≠ none ∧
      ¬(truthyStr r.product_id = none ∧ truthyStr r.enlace = none) := by
  intro r hr
  obtain ⟨k, hk, -, -⟩ := dedupeGo_spec rows [] r hr
  refine ⟨by simp [hk], ?_⟩
  rintro ⟨h1, h2⟩
  rw [tileKey, h1, h2] at hk
  cases hk

/-- Witness for C10: the keyless `rowKeyless` of `rowsW` is dropped, and the
kept `rowW2` has a non-null key. -/
theorem no_keyless_rows_witness :
    tileKey rowW2 ≠ none ∧
    ¬(truthyStr rowW2.product_id = none ∧ truthyStr rowW2.enlace = none) :=
  no_keyless_rows rowsW rowW2 (by decide)

end HP
